import Mathlib

/-!
Verification of the HTTP orchestration layer of the TikTokDownloader fork
(file src/application/main_server.py).  The request validators, envelope
constructors, route handlers and the dispatch of APIServer.setup_routes are
embedded as executable Lean definitions; the extraction-engine methods that
the handlers await (inherited from main_terminal.TikTok, whose file is not
part of the analysed sources) are modelled as an abstract oracle following
the external-collaborator contract of the specification.
-/

/-- A Python runtime value as far as the orchestration layer observes it:
None, booleans, integers, strings, lists and dicts. -/
inductive PyVal where
  | none
  | bool (b : Bool)
  | int (n : Int)
  | str (s : String)
  | list (xs : List PyVal)
  | dict (kvs : List (String × PyVal))
deriving Repr

/-- Python truthiness: bool(v). -/
def truthy : PyVal → Bool
  | PyVal.none => false
  | PyVal.bool b => b
  | PyVal.int n => n != 0
  | PyVal.str s => !s.isEmpty
  | PyVal.list xs => !xs.isEmpty
  | PyVal.dict kvs => !kvs.isEmpty

/-- Truthiness of an optional string argument (Python str = None default). -/
def truthyS : Option String → Bool
  | Option.none => false
  | Option.some s => !s.isEmpty

/-- Python x or y on optional strings: returns x when truthy, else y. -/
def pyOrS (a b : Option String) : Option String :=
  if truthyS a then a else b

/-- Python x and y on optional strings: returns y when x is truthy, else x. -/
def pyAndS (a b : Option String) : Option String :=
  if truthyS a then b else a

/-- Python message or default on an optional string message argument:
None and the empty string both fall back to the default. -/
def orDefault (message : Option String) (default : String) : String :=
  match message with
  | Option.none => default
  | Option.some s => if s.isEmpty then default else s

/-- Encode an optional string field for a model dump. -/
def oStr : Option String → PyVal
  | Option.none => PyVal.none
  | Option.some s => PyVal.str s

/-- Encode an optional integer field for a model dump. -/
def oNat : Option Nat → PyVal
  | Option.none => PyVal.none
  | Option.some n => PyVal.int n

/-- Localized message of token_dependency on failure: 验证失败！ -/
def MSG_AUTH_FAIL : String := "验证失败！"

/-- Localized message of handle_test on success: 验证成功！ -/
def MSG_VERIFY_OK : String := "验证成功！"

/-- Localized parameters-invalid message: 参数错误！ -/
def MSG_PARAMS_INVALID : String := "参数错误！"

/-- Default success message of success_response: 获取数据成功！ -/
def MSG_SUCCESS : String := "获取数据成功！"

/-- Default failure message of failed_response: 获取数据失败！ -/
def MSG_FAILED : String := "获取数据失败！"

/-- Distinguished empty-search-result message: 搜索结果为空！ -/
def MSG_EMPTY_SEARCH : String := "搜索结果为空！"

/-- Share-link success message of handle_share: 请求链接成功！ -/
def MSG_URL_OK : String := "请求链接成功！"

/-- Share-link failure message of handle_share: 请求链接失败！ -/
def MSG_URL_FAIL : String := "请求链接失败！"

/-- APIServer.generate_mix_params (main_server.py lines 776-780):
if mix_id: return True, mix_id; return (False, detail_id) if detail_id
else (None, None).  The first component models the Python value that is
True, False or None; the second the forwarded identifier. -/
def generate_mix_params (mix_id detail_id : Option String) :
    Option Bool × Option String :=
  if truthyS mix_id then (Option.some true, mix_id)
  else if truthyS detail_id then (Option.some false, detail_id)
  else (Option.none, Option.none)

/-- APIServer.check_live_params (main_server.py lines 782-788):
bool(web_rid or room_id and sec_user_id), with Python operator
precedence (and binds tighter than or). -/
def check_live_params (web_rid room_id sec_user_id : Option String) : Bool :=
  truthyS (pyOrS web_rid (pyAndS room_id sec_user_id))

/-- The uniform response envelope DataResponse {message, data, params}. -/
structure DataResponse where
  message : String
  data : PyVal
  params : PyVal
deriving Repr

/-- Pydantic-style model dump of a validated request record into a plain
field mapping, as extract.model_dump() produces. -/
class ModelDump (α : Type) where
  model_dump : α → PyVal

/-- APIServer.success_response (main_server.py lines 753-763):
message or 获取数据成功！, the given data, params = extract.model_dump(). -/
def success_response {α : Type} [ModelDump α]
    (extract : α) (data : PyVal) (message : Option String) : DataResponse :=
  { message := orDefault message MSG_SUCCESS
    data := data
    params := ModelDump.model_dump extract }

/-- APIServer.failed_response (main_server.py lines 765-774):
message or 获取数据失败！, data = None, params = extract.model_dump(). -/
def failed_response {α : Type} [ModelDump α]
    (extract : α) (message : Option String) : DataResponse :=
  { message := orDefault message MSG_FAILED
    data := PyVal.none
    params := ModelDump.model_dump extract }

/-!
Request record models.  The pydantic models (ShortUrl, Detail, Account,
Mix, Live, Comment, Reply and the four search models) live in src/models,
a package not among the analysed sources; the records below are modelled
from the spec and from the per-route parameter documentation embedded in
main_server.py, keeping exactly the fields the handlers read and dump.
-/

/-- Modelled from the spec: the ShortUrl request model (src/models absent):
a required text string holding the share link and an optional proxy. -/
structure ShortUrl where
  text : String
  proxy : Option String
deriving Repr

/-- Modelled from the spec: the Detail and DetailTikTok request models
(src/models absent): required item identifier, optional cookie and proxy,
raw-passthrough flag source. -/
structure Detail where
  cookie : Option String
  proxy : Option String
  source : Bool
  detail_id : String
deriving Repr

/-- Modelled from the spec: the Account and AccountTiktok request models
(src/models absent). -/
structure Account where
  cookie : Option String
  proxy : Option String
  source : Bool
  sec_user_id : String
  tab : String
  earliest : Option String
  latest : Option String
  pages : Option Nat
  cursor : Option Nat
  count : Option Nat
deriving Repr

/-- Modelled from the spec: the Mix request model (src/models absent):
two mutually-alternative identifiers, pagination cursor and count. -/
structure Mix where
  cookie : Option String
  proxy : Option String
  source : Bool
  mix_id : Option String
  detail_id : Option String
  cursor : Option Nat
  count : Option Nat
deriving Repr

/-- Modelled from the spec: the MixTikTok request model (src/models
absent): a required collection identifier. -/
structure MixTikTok where
  cookie : Option String
  proxy : Option String
  source : Bool
  mix_id : String
  cursor : Option Nat
  count : Option Nat
deriving Repr

/-- Modelled from the spec: the Live request model (src/models absent):
platform-specific room identifiers, all optional at the schema level. -/
structure Live where
  cookie : Option String
  proxy : Option String
  source : Bool
  web_rid : Option String
  room_id : Option String
  sec_user_id : Option String
deriving Repr

/-- Modelled from the spec: the Comment request model (src/models absent). -/
structure Comment where
  cookie : Option String
  proxy : Option String
  source : Bool
  detail_id : String
  pages : Option Nat
  cursor : Option Nat
  count : Option Nat
  count_reply : Option Nat
  reply : Bool
deriving Repr

/-- Modelled from the spec: the Reply request model (src/models absent). -/
structure Reply where
  cookie : Option String
  proxy : Option String
  source : Bool
  detail_id : String
  comment_id : String
  pages : Option Nat
  cursor : Option Nat
  count : Option Nat
deriving Repr

/-- The four search route variants of /douyin/search. -/
inductive SearchVariant where
  | general
  | video
  | user
  | live
deriving Repr, DecidableEq

/-- Modelled from the spec: the four search request models GeneralSearch,
VideoSearch, UserSearch and LiveSearch (src/models absent), unified over
their shared fields; the variant tag is carried by the route. -/
structure SearchQuery where
  cookie : Option String
  proxy : Option String
  source : Bool
  keyword : String
  offset : Option Nat
  count : Option Nat
  pages : Option Nat
deriving Repr

instance : ModelDump ShortUrl where
  model_dump r := PyVal.dict
    [("text", PyVal.str r.text), ("proxy", oStr r.proxy)]

instance : ModelDump Detail where
  model_dump r := PyVal.dict
    [("cookie", oStr r.cookie), ("proxy", oStr r.proxy),
     ("source", PyVal.bool r.source), ("detail_id", PyVal.str r.detail_id)]

instance : ModelDump Account where
  model_dump r := PyVal.dict
    [("cookie", oStr r.cookie), ("proxy", oStr r.proxy),
     ("source", PyVal.bool r.source), ("sec_user_id", PyVal.str r.sec_user_id),
     ("tab", PyVal.str r.tab), ("earliest", oStr r.earliest),
     ("latest", oStr r.latest), ("pages", oNat r.pages),
     ("cursor", oNat r.cursor), ("count", oNat r.count)]

instance : ModelDump Mix where
  model_dump r := PyVal.dict
    [("cookie", oStr r.cookie), ("proxy", oStr r.proxy),
     ("source", PyVal.bool r.source), ("mix_id", oStr r.mix_id),
     ("detail_id", oStr r.detail_id), ("cursor", oNat r.cursor),
     ("count", oNat r.count)]

instance : ModelDump MixTikTok where
  model_dump r := PyVal.dict
    [("cookie", oStr r.cookie), ("proxy", oStr r.proxy),
     ("source", PyVal.bool r.source), ("mix_id", PyVal.str r.mix_id),
     ("cursor", oNat r.cursor), ("count", oNat r.count)]

instance : ModelDump Live where
  model_dump r := PyVal.dict
    [("cookie", oStr r.cookie), ("proxy", oStr r.proxy),
     ("source", PyVal.bool r.source), ("web_rid", oStr r.web_rid),
     ("room_id", oStr r.room_id), ("sec_user_id", oStr r.sec_user_id)]

instance : ModelDump Comment where
  model_dump r := PyVal.dict
    [("cookie", oStr r.cookie), ("proxy", oStr r.proxy),
     ("source", PyVal.bool r.source), ("detail_id", PyVal.str r.detail_id),
     ("pages", oNat r.pages), ("cursor", oNat r.cursor),
     ("count", oNat r.count), ("count_reply", oNat r.count_reply),
     ("reply", PyVal.bool r.reply)]

instance : ModelDump Reply where
  model_dump r := PyVal.dict
    [("cookie", oStr r.cookie), ("proxy", oStr r.proxy),
     ("source", PyVal.bool r.source), ("detail_id", PyVal.str r.detail_id),
     ("comment_id", PyVal.str r.comment_id), ("pages", oNat r.pages),
     ("cursor", oNat r.cursor), ("count", oNat r.count)]

instance : ModelDump SearchQuery where
  model_dump r := PyVal.dict
    [("cookie", oStr r.cookie), ("proxy", oStr r.proxy),
     ("source", PyVal.bool r.source), ("keyword", PyVal.str r.keyword),
     ("offset", oNat r.offset), ("count", oNat r.count),
     ("pages", oNat r.pages)]

/-- One invocation of an extraction-engine operation, recorded so that the
theorems can assert which gateway calls a request caused. -/
inductive GatewayCall where
  | links_run (text : String)
  | links_tiktok_run (text : String)
  | detail_inner (detail_id : String)
  | deal_account_detail (sec_user_id : String)
  | deal_mix_detail (is_mix : Bool) (id_ : Option String)
  | get_live_data (web_rid : Option String)
  | get_live_data_tiktok (room_id : Option String)
  | comment_handle_single (detail_id : String)
  | reply_handle (detail_id : String) (comment_id : String)
  | deal_search_data (v : SearchVariant) (keyword : String)
deriving Repr, DecidableEq

/-- Modelled from the spec: the extraction-engine methods the handlers
await, inherited from main_terminal.TikTok (src/application/main_terminal.py
is not among the analysed sources).  Per the collaborator contract every
operation is fallible and the core treats any failure as no data, so each
operation is an arbitrary pure oracle returning the value the awaited call
produced: a falsy value or an empty list stands for failure or no data. -/
structure Gateway where
  links_run : String → Option String → PyVal
  links_tiktok_run : String → Option String → PyVal
  detail_inner : List String → Bool → Bool → Bool →
    Option String → Option String → List PyVal
  deal_account_detail : Nat → String → String → Option String →
    Option String → Option Nat → Bool → Bool → Option String →
    Option String → Bool → Option Nat → Option Nat → PyVal
  deal_mix_detail : Bool → Option String → Bool → Option String →
    Option String → Option Nat → Option Nat → PyVal
  get_live_data : Option String → Option String → Option String → PyVal
  get_live_data_tiktok : Option String → Option String → Option String → PyVal
  extractor_run_live : PyVal → Bool → List PyVal
  comment_handle_single : String → Option String → Option String → Bool →
    Option Nat → Option Nat → Option Nat → Option Nat → Bool → PyVal
  reply_handle : String → String → Option String → Option String →
    Option Nat → Option Nat → Option Nat → Bool → PyVal
  deal_search_data : SearchVariant → SearchQuery → Bool → PyVal
  settings_data : PyVal
  settings_after_update : PyVal → PyVal

/-- The transport-level result of one dispatched request: an HTTP error
raised by a dependency, a redirect, a DataResponse envelope, a UrlResponse
or a Settings document. -/
inductive ApiResult where
  | httpError (status : Nat) (detail : String)
  | redirect (url : String)
  | data (r : DataResponse)
  | url (message : String) (u : PyVal) (params : PyVal)
  | settings (s : PyVal)
deriving Repr

/-- Modelled from the spec: the project repository URL constant REPOSITORY
imported from src/custom (absent), target of the index redirect. -/
def REPOSITORY : String := "https://github.com/JoeanAmier/TikTokDownloader"

/-- Route handler handle_share / handle_share_tiktok (lines 229-242 and
574-587): resolve the share link through links.run and wrap the result in
a UrlResponse with a success or failure message. -/
def handle_share_route (gw : Gateway) (extract : ShortUrl) (tiktok : Bool) :
    ApiResult × List GatewayCall :=
  let url := if tiktok then gw.links_tiktok_run extract.text extract.proxy
             else gw.links_run extract.text extract.proxy
  let call := if tiktok then GatewayCall.links_tiktok_run extract.text
              else GatewayCall.links_run extract.text
  if truthy url then
    (ApiResult.url MSG_URL_OK url (ModelDump.model_dump extract), [call])
  else
    (ApiResult.url MSG_URL_FAIL PyVal.none (ModelDump.model_dump extract), [call])

/-- Method APIServer.handle_detail (lines 711-728): fetch via
_handle_detail with the single-element id list and wrap data[0] on
success (the record/logger context manager does not affect the envelope
and is omitted). -/
def handle_detail_method (gw : Gateway) (extract : Detail) (tiktok : Bool) :
    ApiResult × List GatewayCall :=
  let data := gw.detail_inner [extract.detail_id] tiktok true
    extract.source extract.cookie extract.proxy
  match data with
  | [] => (ApiResult.data (failed_response extract Option.none),
      [GatewayCall.detail_inner extract.detail_id])
  | d :: _ => (ApiResult.data (success_response extract d Option.none),
      [GatewayCall.detail_inner extract.detail_id])

/-- Method APIServer.handle_account (lines 730-751): fetch via
deal_account_detail and wrap the whole result. -/
def handle_account_method (gw : Gateway) (extract : Account) (tiktok : Bool) :
    ApiResult × List GatewayCall :=
  let data := gw.deal_account_detail 0 extract.sec_user_id extract.tab
    extract.earliest extract.latest extract.pages true extract.source
    extract.cookie extract.proxy tiktok extract.cursor extract.count
  if truthy data then
    (ApiResult.data (success_response extract data Option.none),
      [GatewayCall.deal_account_detail extract.sec_user_id])
  else
    (ApiResult.data (failed_response extract Option.none),
      [GatewayCall.deal_account_detail extract.sec_user_id])

/-- Route handler handle_mix (lines 313-335): disambiguate the two
identifiers with generate_mix_params, reject the non-boolean sentinel with
the 参数错误 envelope before any engine call, otherwise fetch through
deal_mix_detail and wrap. -/
def handle_mix_route (gw : Gateway) (extract : Mix) :
    ApiResult × List GatewayCall :=
  match generate_mix_params extract.mix_id extract.detail_id with
  | (Option.none, _) =>
      (ApiResult.data
        { message := MSG_PARAMS_INVALID
          data := PyVal.none
          params := ModelDump.model_dump extract }, [])
  | (Option.some is_mix, id_) =>
      let data := gw.deal_mix_detail is_mix id_ extract.source
        extract.cookie extract.proxy extract.cursor extract.count
      if truthy data then
        (ApiResult.data (success_response extract data Option.none),
          [GatewayCall.deal_mix_detail is_mix id_])
      else
        (ApiResult.data (failed_response extract Option.none),
          [GatewayCall.deal_mix_detail is_mix id_])

/-- Route handler handle_mix_tiktok (lines 655-669): always a collection
fetch with the required mix_id. -/
def handle_mix_tiktok_route (gw : Gateway) (extract : MixTikTok) :
    ApiResult × List GatewayCall :=
  let data := gw.deal_mix_detail true (Option.some extract.mix_id)
    extract.source extract.cookie extract.proxy extract.cursor extract.count
  if truthy data then
    (ApiResult.data (success_response extract data Option.none),
      [GatewayCall.deal_mix_detail true (Option.some extract.mix_id)])
  else
    (ApiResult.data (failed_response extract Option.none),
      [GatewayCall.deal_mix_detail true (Option.some extract.mix_id)])

/-- Method APIServer.handle_live (lines 790-812): fetch the raw live data
for the platform-appropriate identifier, return the one-element raw list
when source is set, otherwise the extractor output list. -/
def handle_live_method (gw : Gateway) (extract : Live) (tiktok : Bool) :
    List PyVal × List GatewayCall :=
  let data := if tiktok then
      gw.get_live_data_tiktok extract.room_id extract.cookie extract.proxy
    else
      gw.get_live_data extract.web_rid extract.cookie extract.proxy
  let calls := if tiktok then [GatewayCall.get_live_data_tiktok extract.room_id]
    else [GatewayCall.get_live_data extract.web_rid]
  if extract.source then ([data], calls)
  else (gw.extractor_run_live data tiktok, calls)

/-- Route handler handle_live / handle_live_tiktok (lines 353-373 and
687-695): the identifier validation block is commented out in the source;
the handler dispatches unconditionally and wraps data[0] on a truthy
(non-empty) result list. -/
def handle_live_route (gw : Gateway) (extract : Live) (tiktok : Bool) :
    ApiResult × List GatewayCall :=
  let (data, calls) := handle_live_method gw extract tiktok
  match data with
  | [] => (ApiResult.data (failed_response extract Option.none), calls)
  | d :: _ => (ApiResult.data (success_response extract d Option.none), calls)

/-- Route handler handle_comment (lines 396-411). -/
def handle_comment_route (gw : Gateway) (extract : Comment) :
    ApiResult × List GatewayCall :=
  let data := gw.comment_handle_single extract.detail_id extract.cookie
    extract.proxy extract.source extract.pages extract.cursor extract.count
    extract.count_reply extract.reply
  if truthy data then
    (ApiResult.data (success_response extract data Option.none),
      [GatewayCall.comment_handle_single extract.detail_id])
  else
    (ApiResult.data (failed_response extract Option.none),
      [GatewayCall.comment_handle_single extract.detail_id])

/-- Route handler handle_reply (lines 433-445). -/
def handle_reply_route (gw : Gateway) (extract : Reply) :
    ApiResult × List GatewayCall :=
  let data := gw.reply_handle extract.detail_id extract.comment_id
    extract.cookie extract.proxy extract.pages extract.cursor extract.count
    extract.source
  if truthy data then
    (ApiResult.data (success_response extract data Option.none),
      [GatewayCall.reply_handle extract.detail_id extract.comment_id])
  else
    (ApiResult.data (failed_response extract Option.none),
      [GatewayCall.reply_handle extract.detail_id extract.comment_id])

/-- Method APIServer.handle_search (lines 697-709): when deal_search_data
returns a list, wrap it as a success when any element is truthy, otherwise
reuse success_response with a None payload and the 搜索结果为空 message;
a non-list result is the failure envelope. -/
def handle_search (gw : Gateway) (v : SearchVariant) (extract : SearchQuery) :
    ApiResult × List GatewayCall :=
  let call := [GatewayCall.deal_search_data v extract.keyword]
  match gw.deal_search_data v extract extract.source with
  | PyVal.list xs =>
      if xs.any truthy then
        (ApiResult.data (success_response extract (PyVal.list xs) Option.none),
          call)
      else
        (ApiResult.data
          (success_response extract PyVal.none (Option.some MSG_EMPTY_SEARCH)),
          call)
  | _ => (ApiResult.data (failed_response extract Option.none), call)

/-- One bound, schema-valid request to a route of setup_routes (lines
154-695); the four /douyin/search routes are carried by one constructor
with the variant tag. -/
inductive Request where
  | index
  | tokenTest
  | settingsGet
  | settingsPost (body : PyVal)
  | douyinShare (r : ShortUrl)
  | douyinDetail (r : Detail)
  | douyinAccount (r : Account)
  | douyinMix (r : Mix)
  | douyinLive (r : Live)
  | douyinComment (r : Comment)
  | douyinReply (r : Reply)
  | douyinSearch (v : SearchVariant) (r : SearchQuery)
  | tiktokShare (r : ShortUrl)
  | tiktokDetail (r : Detail)
  | tiktokAccount (r : Account)
  | tiktokMix (r : MixTikTok)
  | tiktokLive (r : Live)
deriving Repr

/-- Whether the route declares the token dependency: every route of
setup_routes except the index redirect route does. -/
def requiresToken : Request → Bool
  | Request.index => false
  | _ => true

/-- The handler body of each route, run only after the token dependency
admitted the request; pairs the transport result with the list of
extraction-engine calls the handler caused. -/
def runHandler (gw : Gateway) : Request → ApiResult × List GatewayCall
  | Request.index => (ApiResult.redirect REPOSITORY, [])
  | Request.tokenTest =>
      (ApiResult.data
        { message := MSG_VERIFY_OK, data := PyVal.none, params := PyVal.none },
        [])
  | Request.settingsGet => (ApiResult.settings gw.settings_data, [])
  | Request.settingsPost body =>
      (ApiResult.settings (gw.settings_after_update body), [])
  | Request.douyinShare r => handle_share_route gw r false
  | Request.douyinDetail r => handle_detail_method gw r false
  | Request.douyinAccount r => handle_account_method gw r false
  | Request.douyinMix r => handle_mix_route gw r
  | Request.douyinLive r => handle_live_route gw r false
  | Request.douyinComment r => handle_comment_route gw r
  | Request.douyinReply r => handle_reply_route gw r
  | Request.douyinSearch v r => handle_search gw v r
  | Request.tiktokShare r => handle_share_route gw r true
  | Request.tiktokDetail r => handle_detail_method gw r true
  | Request.tiktokAccount r => handle_account_method gw r true
  | Request.tiktokMix r => handle_mix_tiktok_route gw r
  | Request.tiktokLive r => handle_live_route gw r true

/-- token_dependency (lines 46-51) composed with the route table: the
dependency raises HTTPException 403 with the 验证失败 detail whenever
is_valid_token rejects the header, before the handler body runs.  The
predicate valid abstracts is_valid_token of src/custom (absent from the
analysed sources); token is the optional header value. -/
def dispatch (valid : Option String → Bool) (gw : Gateway)
    (token : Option String) (req : Request) : ApiResult × List GatewayCall :=
  if requiresToken req = true ∧ valid token = false then
    (ApiResult.httpError 403 MSG_AUTH_FAIL, [])
  else runHandler gw req

/-- The outcome taxonomy of the spec for one business request: success,
empty-result, upstream failure, or locally rejected parameters. -/
inductive Outcome where
  | success
  | emptyResult
  | failure
  | paramsInvalid
deriving Repr, DecidableEq

/-- The fixed localized message the spec associates with each outcome. -/
def messageOf : Outcome → String
  | Outcome.success => MSG_SUCCESS
  | Outcome.emptyResult => MSG_EMPTY_SEARCH
  | Outcome.failure => MSG_FAILED
  | Outcome.paramsInvalid => MSG_PARAMS_INVALID

/-- Actual outcome of a live request, classified from the engine results
themselves: with the raw flag the fetch result decides, otherwise the
extractor output does. -/
def liveOutcome (gw : Gateway) (r : Live) (tiktok : Bool) : Outcome :=
  let fetch := if tiktok then gw.get_live_data_tiktok r.room_id r.cookie r.proxy
               else gw.get_live_data r.web_rid r.cookie r.proxy
  if r.source then
    (if truthy fetch then Outcome.success else Outcome.failure)
  else
    (if (gw.extractor_run_live fetch tiktok).isEmpty then Outcome.failure
     else Outcome.success)

/-- Actual outcome of each business request, classified directly from the
extraction-engine results the request would consult (independently of the
envelope the handler builds); none for the non-business routes. -/
def outcome (gw : Gateway) : Request → Option Outcome
  | Request.douyinDetail r =>
      Option.some (if (gw.detail_inner [r.detail_id] false true r.source
        r.cookie r.proxy).isEmpty then Outcome.failure else Outcome.success)
  | Request.tiktokDetail r =>
      Option.some (if (gw.detail_inner [r.detail_id] true true r.source
        r.cookie r.proxy).isEmpty then Outcome.failure else Outcome.success)
  | Request.douyinAccount r =>
      Option.some (if truthy (gw.deal_account_detail 0 r.sec_user_id r.tab
        r.earliest r.latest r.pages true r.source r.cookie r.proxy false
        r.cursor r.count) then Outcome.success else Outcome.failure)
  | Request.tiktokAccount r =>
      Option.some (if truthy (gw.deal_account_detail 0 r.sec_user_id r.tab
        r.earliest r.latest r.pages true r.source r.cookie r.proxy true
        r.cursor r.count) then Outcome.success else Outcome.failure)
  | Request.douyinMix r =>
      Option.some (match generate_mix_params r.mix_id r.detail_id with
        | (Option.none, _) => Outcome.paramsInvalid
        | (Option.some b, id_) =>
            if truthy (gw.deal_mix_detail b id_ r.source r.cookie r.proxy
              r.cursor r.count) then Outcome.success else Outcome.failure)
  | Request.tiktokMix r =>
      Option.some (if truthy (gw.deal_mix_detail true (Option.some r.mix_id)
        r.source r.cookie r.proxy r.cursor r.count) then Outcome.success
        else Outcome.failure)
  | Request.douyinLive r => Option.some (liveOutcome gw r false)
  | Request.tiktokLive r => Option.some (liveOutcome gw r true)
  | Request.douyinComment r =>
      Option.some (if truthy (gw.comment_handle_single r.detail_id r.cookie
        r.proxy r.source r.pages r.cursor r.count r.count_reply r.reply)
        then Outcome.success else Outcome.failure)
  | Request.douyinReply r =>
      Option.some (if truthy (gw.reply_handle r.detail_id r.comment_id
        r.cookie r.proxy r.pages r.cursor r.count r.source)
        then Outcome.success else Outcome.failure)
  | Request.douyinSearch v q =>
      Option.some (match gw.deal_search_data v q q.source with
        | PyVal.list xs =>
            if xs.any truthy then Outcome.success else Outcome.emptyResult
        | _ => Outcome.failure)
  | _ => Option.none

/-- The routes whose handlers consult the extraction engine and answer
with the DataResponse envelope. -/
def isBusiness : Request → Bool
  | Request.douyinDetail _ | Request.douyinAccount _ | Request.douyinMix _
  | Request.douyinLive _ | Request.douyinComment _ | Request.douyinReply _
  | Request.douyinSearch _ _ | Request.tiktokDetail _
  | Request.tiktokAccount _ | Request.tiktokMix _ | Request.tiktokLive _ => true
  | _ => false

/-- A live request with the raw-passthrough flag set. -/
def liveRaw : Request → Bool
  | Request.douyinLive r => r.source
  | Request.tiktokLive r => r.source
  | _ => false

/-- The engine honours the record contract: every record in a detail or
live-extractor result list is truthy (a non-empty mapping). -/
def WellBehaved (gw : Gateway) : Prop :=
  (∀ ids tk api src ck px, ∀ x ∈ gw.detail_inner ids tk api src ck px,
    truthy x = true) ∧
  (∀ d tk, ∀ x ∈ gw.extractor_run_live d tk, truthy x = true)

/-- The raw live fetch a request would trigger does not fail. -/
def LiveRawOk (gw : Gateway) : Request → Prop
  | Request.douyinLive r =>
      r.source = true → truthy (gw.get_live_data r.web_rid r.cookie r.proxy) = true
  | Request.tiktokLive r =>
      r.source = true →
        truthy (gw.get_live_data_tiktok r.room_id r.cookie r.proxy) = true
  | _ => True

/-- Every extraction-engine operation fails: per the collaborator contract
a fault is surfaced to the core as a falsy no-data value or an empty list. -/
def AllFail (gw : Gateway) : Prop :=
  (∀ t p, gw.links_run t p = PyVal.none) ∧
  (∀ t p, gw.links_tiktok_run t p = PyVal.none) ∧
  (∀ ids tk api src ck px, gw.detail_inner ids tk api src ck px = []) ∧
  (∀ a b c d e f g h i j k l m,
    gw.deal_account_detail a b c d e f g h i j k l m = PyVal.none) ∧
  (∀ a b c d e f g, gw.deal_mix_detail a b c d e f g = PyVal.none) ∧
  (∀ a b c, gw.get_live_data a b c = PyVal.none) ∧
  (∀ a b c, gw.get_live_data_tiktok a b c = PyVal.none) ∧
  (∀ d tk, gw.extractor_run_live d tk = []) ∧
  (∀ a b c d e f g h i, gw.comment_handle_single a b c d e f g h i = PyVal.none) ∧
  (∀ a b c d e f g h, gw.reply_handle a b c d e f g h = PyVal.none) ∧
  (∀ v q s, gw.deal_search_data v q s = PyVal.none)

/-- A stub collaborator on which every operation fails. -/
def gwFail : Gateway where
  links_run _ _ := PyVal.none
  links_tiktok_run _ _ := PyVal.none
  detail_inner _ _ _ _ _ _ := []
  deal_account_detail _ _ _ _ _ _ _ _ _ _ _ _ _ := PyVal.none
  deal_mix_detail _ _ _ _ _ _ _ := PyVal.none
  get_live_data _ _ _ := PyVal.none
  get_live_data_tiktok _ _ _ := PyVal.none
  extractor_run_live _ _ := []
  comment_handle_single _ _ _ _ _ _ _ _ _ := PyVal.none
  reply_handle _ _ _ _ _ _ _ _ := PyVal.none
  deal_search_data _ _ _ := PyVal.none
  settings_data := PyVal.dict []
  settings_after_update s := s

/-- A stub collaborator whose search returns one falsy record. -/
def gwOneFalsy : Gateway :=
  { gwFail with deal_search_data := fun _ _ _ => PyVal.list [PyVal.dict []] }

/-- A stub collaborator whose search returns one truthy record. -/
def gwSearchHit : Gateway :=
  { gwFail with deal_search_data :=
      fun _ _ _ => PyVal.list [PyVal.dict [("id", PyVal.str "v1")]] }

/-- A token validator that accepts everything (an unconfigured deploy). -/
def validAll : Option String → Bool := fun _ => true

/-- A token validator configured with the allow-value secret. -/
def validSecret : Option String → Bool
  | Option.some s => s == "secret"
  | Option.none => false

/-- A mix request supplying both identifiers. -/
def mixBoth : Mix :=
  { cookie := Option.none, proxy := Option.none, source := false
    mix_id := Option.some "123", detail_id := Option.some "456"
    cursor := Option.none, count := Option.none }

/-- A mix request supplying neither identifier. -/
def mixNeither : Mix :=
  { cookie := Option.none, proxy := Option.none, source := false
    mix_id := Option.none, detail_id := Option.none
    cursor := Option.none, count := Option.none }

/-- A live request with the raw flag set. -/
def liveRawReq : Live :=
  { cookie := Option.none, proxy := Option.none, source := true
    web_rid := Option.some "w1", room_id := Option.none
    sec_user_id := Option.none }

/-- A live request supplying no identifier at all. -/
def liveNoIds : Live :=
  { cookie := Option.none, proxy := Option.none, source := false
    web_rid := Option.none, room_id := Option.none
    sec_user_id := Option.none }

/-- A comment request fixture. -/
def commentReq : Comment :=
  { cookie := Option.none, proxy := Option.none, source := false
    detail_id := "777", pages := Option.none, cursor := Option.none
    count := Option.none, count_reply := Option.none, reply := false }

/-- A search request fixture. -/
def sq0 : SearchQuery :=
  { cookie := Option.none, proxy := Option.none, source := false
    keyword := "cats", offset := Option.none, count := Option.none
    pages := Option.none }

/-- An admitted credential reduces dispatch to the route handler body. -/
theorem dispatch_of_valid (valid : Option String → Bool) (gw : Gateway)
    (token : Option String) (req : Request) (hv : valid token = true) :
    dispatch valid gw token req = runHandler gw req := by
  simp [dispatch, hv]

/-- C10: check_live_params is true iff web_rid is truthy or both room_id
and sec_user_id are truthy, the Python conjunction binding tighter than
the disjunction; supplying room_id alone or sec_user_id alone yields
false. -/
theorem c10_check_live_params :
    (∀ w r s : Option String,
      check_live_params w r s = (truthyS w || (truthyS r && truthyS s))) ∧
    check_live_params Option.none (Option.some "room") Option.none = false ∧
    check_live_params Option.none Option.none (Option.some "sec") = false := by
  refine ⟨?_, by decide, by decide⟩
  intro w r s
  simp only [check_live_params, pyOrS, pyAndS]
  cases hw : truthyS w <;> cases hr : truthyS r <;> simp [hw, hr]

/-- C9: when both identifiers are truthy, generate_mix_params prefers the
collection identifier and returns (True, mix_id); the (None, None)
sentinel arises exactly when both arguments are falsy. -/
theorem c9_mix_precedence (m d : Option String)
    (hm : truthyS m = true) (_hd : truthyS d = true) :
    generate_mix_params m d = (Option.some true, m) ∧
    ∀ a b : Option String,
      (generate_mix_params a b = (Option.none, Option.none) ↔
        (truthyS a = false ∧ truthyS b = false)) := by
  constructor
  · simp [generate_mix_params, hm]
  · intro a b
    cases ha : truthyS a <;> cases hb : truthyS b <;>
      simp [generate_mix_params, ha, hb]

/-- Witness for C9 at mix_id 123 and detail_id 456. -/
theorem c9_witness :
    generate_mix_params (Option.some "123") (Option.some "456")
      = (Option.some true, Option.some "123") :=
  (c9_mix_precedence (Option.some "123") (Option.some "456")
    (by decide) (by decide)).1

/-- C7 fails as stated: an explicit empty-string override is an override
that is given, yet success_response answers the fixed default success
message rather than the override, because Python evaluates message or
default by truthiness. -/
theorem c7_counterexample :
    (success_response mixBoth (PyVal.str "payload") (Option.some "")).message
      = MSG_SUCCESS ∧ MSG_SUCCESS ≠ "" := by
  exact ⟨rfl, by decide⟩

/-- C7 amended: both constructors echo the dumped request as params;
success_response keeps the given data and failed_response nulls it; with
no override the messages are the fixed success and failure strings, and a
non-empty override replaces them (an empty-string override falls back to
the default). -/
theorem c7_amended_envelope_constructors {α : Type} [ModelDump α]
    (extract : α) (data : PyVal) (m : String) (hm : m ≠ "") :
    (∀ mo, (success_response extract data mo).params
      = ModelDump.model_dump extract) ∧
    (∀ mo, (failed_response extract mo).params
      = ModelDump.model_dump extract) ∧
    (∀ mo, (success_response extract data mo).data = data) ∧
    (∀ mo, (failed_response extract mo).data = PyVal.none) ∧
    (success_response extract data Option.none).message = MSG_SUCCESS ∧
    (failed_response extract Option.none).message = MSG_FAILED ∧
    (success_response extract data (Option.some m)).message = m ∧
    (failed_response extract (Option.some m)).message = m := by
  have hempty : m.isEmpty = false := by
    cases h : m.isEmpty
    · rfl
    · exact absurd ((String.isEmpty_iff m).1 h) hm
  refine ⟨fun _ => rfl, fun _ => rfl, fun _ => rfl, fun _ => rfl,
    rfl, rfl, ?_, ?_⟩
  · simp [success_response, orDefault, hempty]
  · simp [failed_response, orDefault, hempty]

/-- Witness for the amended C7 at a concrete record and override. -/
theorem c7_witness :
    (success_response mixBoth (PyVal.str "p") (Option.some "custom")).message
      = "custom" :=
  (c7_amended_envelope_constructors mixBoth (PyVal.str "p") "custom"
    (by decide)).2.2.2.2.2.2.1

/-- C2: on every route except the index redirect, a credential the
validator rejects makes dispatch answer the fixed 403 authentication
failure with its localized detail; the handler body never runs and the
extraction-engine call list is empty. -/
theorem c2_auth_gate (valid : Option String → Bool) (gw : Gateway)
    (token : Option String) (req : Request)
    (hreq : req ≠ Request.index) (hv : valid token = false) :
    dispatch valid gw token req = (ApiResult.httpError 403 MSG_AUTH_FAIL, []) := by
  have ht : requiresToken req = true := by
    cases req
    · exact absurd rfl hreq
    all_goals rfl
  simp [dispatch, ht, hv]

/-- Witness for C2: a wrong credential on the comment route. -/
theorem c2_witness :
    dispatch validSecret gwFail (Option.some "wrong")
        (Request.douyinComment commentReq)
      = (ApiResult.httpError 403 MSG_AUTH_FAIL, []) :=
  c2_auth_gate validSecret gwFail (Option.some "wrong")
    (Request.douyinComment commentReq)
    (fun h => Request.noConfusion h) (by decide)

/-- C8: GET token with an admitted credential answers the fixed
verification-success envelope with null data, and with a rejected or
absent credential the 403 authentication failure. -/
theorem c8_token_route (valid : Option String → Bool) (gw : Gateway)
    (token : Option String) :
    (valid token = true →
      dispatch valid gw token Request.tokenTest
        = (ApiResult.data
            { message := MSG_VERIFY_OK, data := PyVal.none
              params := PyVal.none }, [])) ∧
    (valid token = false →
      dispatch valid gw token Request.tokenTest
        = (ApiResult.httpError 403 MSG_AUTH_FAIL, [])) := by
  constructor
  · intro hv
    simp [dispatch, hv, runHandler]
  · intro hv
    simp [dispatch, hv, requiresToken]

/-- Witness for C8 with a configured validator: the right credential and
a missing credential. -/
theorem c8_witness :
    dispatch validSecret gwFail (Option.some "secret") Request.tokenTest
      = (ApiResult.data
          { message := MSG_VERIFY_OK, data := PyVal.none
            params := PyVal.none }, []) ∧
    dispatch validSecret gwFail Option.none Request.tokenTest
      = (ApiResult.httpError 403 MSG_AUTH_FAIL, []) :=
  ⟨(c8_token_route validSecret gwFail (Option.some "secret")).1 (by decide),
   (c8_token_route validSecret gwFail Option.none).2 (by decide)⟩

/-- C1 fails as stated: with both identifiers supplied the validator does
not answer the ambiguous sentinel but prefers the collection identifier,
and the mix handler then calls the extraction engine instead of answering
the parameters-invalid envelope. -/
theorem c1_counterexample :
    generate_mix_params (Option.some "123") (Option.some "456")
      = (Option.some true, Option.some "123") ∧
    ((Option.some true, Option.some "123") :
        Option Bool × Option String) ≠ (Option.none, Option.none) ∧
    dispatch validAll gwFail (Option.some "t") (Request.douyinMix mixBoth)
      = (ApiResult.data
          { message := MSG_FAILED, data := PyVal.none
            params := ModelDump.model_dump mixBoth },
         [GatewayCall.deal_mix_detail true (Option.some "123")]) ∧
    MSG_FAILED ≠ MSG_PARAMS_INVALID ∧
    [GatewayCall.deal_mix_detail true (Option.some "123")]
      ≠ ([] : List GatewayCall) := by
  refine ⟨by decide, by decide, by rfl, by decide, by decide⟩

/-- C1 amended: the validator answers exactly one of the three shapes;
the sentinel arises exactly when both identifiers are falsy (with both
supplied, the collection identifier wins); whenever the sentinel arises
the mix handler answers the parameters-invalid envelope with null data
and makes no extraction-engine call. -/
theorem c1_amended_mix_disambiguation (m d : Option String) (gw : Gateway)
    (valid : Option String → Bool) (token : Option String) (r : Mix)
    (hv : valid token = true)
    (hm : truthyS r.mix_id = false) (hd : truthyS r.detail_id = false) :
    (generate_mix_params m d = (Option.some true, m) ∨
     generate_mix_params m d = (Option.some false, d) ∨
     generate_mix_params m d = (Option.none, Option.none)) ∧
    (generate_mix_params m d = (Option.none, Option.none) ↔
      (truthyS m = false ∧ truthyS d = false)) ∧
    dispatch valid gw token (Request.douyinMix r)
      = (ApiResult.data
          { message := MSG_PARAMS_INVALID, data := PyVal.none
            params := ModelDump.model_dump r }, []) := by
  refine ⟨?_, ?_, ?_⟩
  · cases hm2 : truthyS m <;> cases hd2 : truthyS d <;>
      simp [generate_mix_params, hm2, hd2]
  · cases hm2 : truthyS m <;> cases hd2 : truthyS d <;>
      simp [generate_mix_params, hm2, hd2]
  · rw [dispatch_of_valid _ _ _ _ hv]
    show handle_mix_route gw r = _
    simp [handle_mix_route, generate_mix_params, hm, hd]

/-- Witness for the amended C1: a mix request with neither identifier is
rejected locally. -/
theorem c1_witness :
    dispatch validAll gwFail (Option.some "t") (Request.douyinMix mixNeither)
      = (ApiResult.data
          { message := MSG_PARAMS_INVALID, data := PyVal.none
            params := ModelDump.model_dump mixNeither }, []) :=
  (c1_amended_mix_disambiguation (Option.some "a") Option.none gwFail validAll
    (Option.some "t") mixNeither rfl (by decide) (by decide)).2.2

/-- C6 fails as stated: the identifier validation of the live route is
commented out, so a live request with no identifier at all is not
rejected with the parameters-invalid envelope; the extraction engine is
called and its empty answer becomes the ordinary failure envelope. -/
theorem c6_counterexample :
    check_live_params liveNoIds.web_rid liveNoIds.room_id liveNoIds.sec_user_id
      = false ∧
    dispatch validAll gwFail (Option.some "t") (Request.douyinLive liveNoIds)
      = (ApiResult.data
          { message := MSG_FAILED, data := PyVal.none
            params := ModelDump.model_dump liveNoIds },
         [GatewayCall.get_live_data Option.none]) ∧
    MSG_FAILED ≠ MSG_PARAMS_INVALID ∧
    [GatewayCall.get_live_data Option.none] ≠ ([] : List GatewayCall) := by
  refine ⟨by decide, by rfl, by decide, by decide⟩

/-- The fixed failure message differs from the parameters-invalid one. -/
theorem msg_failed_ne : MSG_FAILED ≠ MSG_PARAMS_INVALID := by decide

/-- The fixed success message differs from the parameters-invalid one. -/
theorem msg_success_ne : MSG_SUCCESS ≠ MSG_PARAMS_INVALID := by decide

/-- C6 amended: the live route performs no identifier validation at all;
every admitted live request is dispatched to the extraction engine (one
live fetch keyed on web_rid) and answered with a success or failure
envelope, never with the parameters-invalid message. -/
theorem c6_amended_live_no_validation (gw : Gateway)
    (valid : Option String → Bool) (token : Option String) (r : Live)
    (hv : valid token = true) :
    (dispatch valid gw token (Request.douyinLive r)).2
      = [GatewayCall.get_live_data r.web_rid] ∧
    ∃ env, (dispatch valid gw token (Request.douyinLive r)).1
        = ApiResult.data env ∧
      (env.message = MSG_SUCCESS ∨ env.message = MSG_FAILED) ∧
      env.message ≠ MSG_PARAMS_INVALID ∧
      env.params = ModelDump.model_dump r := by
  rw [dispatch_of_valid _ _ _ _ hv]
  have hrh : runHandler gw (Request.douyinLive r) = handle_live_route gw r false :=
    rfl
  rw [hrh]
  cases hs : r.source
  · cases hxs : gw.extractor_run_live
        (gw.get_live_data r.web_rid r.cookie r.proxy) false with
    | nil =>
        refine ⟨?_, failed_response r Option.none, ?_, Or.inr rfl,
          msg_failed_ne, rfl⟩ <;>
          simp [handle_live_route, handle_live_method, hs, hxs]
    | cons d rest =>
        refine ⟨?_, success_response r d Option.none, ?_, Or.inl rfl,
          msg_success_ne, rfl⟩ <;>
          simp [handle_live_route, handle_live_method, hs, hxs]
  · refine ⟨?_, success_response r
        (gw.get_live_data r.web_rid r.cookie r.proxy) Option.none, ?_,
        Or.inl rfl, msg_success_ne, rfl⟩ <;>
      simp [handle_live_route, handle_live_method, hs]

/-- Witness for the amended C6: the engine is consulted even when no
identifier is supplied. -/
theorem c6_witness :
    (dispatch validAll gwFail (Option.some "t")
        (Request.douyinLive liveNoIds)).2
      = [GatewayCall.get_live_data liveNoIds.web_rid] :=
  (c6_amended_live_no_validation gwFail validAll (Option.some "t")
    liveNoIds rfl).1

/-- C3 fails as stated: the handler discriminates by any(data), not by
emptiness, so a non-empty result list whose records are all falsy (here a
single empty mapping) is answered with the empty-result message and null
data instead of the success envelope carrying the list. -/
theorem c3_counterexample :
    gwOneFalsy.deal_search_data SearchVariant.general sq0 sq0.source
      = PyVal.list [PyVal.dict []] ∧
    ([PyVal.dict []] : List PyVal) ≠ [] ∧
    (dispatch validAll gwOneFalsy (Option.some "t")
        (Request.douyinSearch SearchVariant.general sq0)).1
      = ApiResult.data
          { message := MSG_EMPTY_SEARCH, data := PyVal.none
            params := ModelDump.model_dump sq0 } ∧
    MSG_EMPTY_SEARCH ≠ MSG_SUCCESS := by
  refine ⟨rfl, by simp, by rfl, by decide⟩

/-- C3 amended: for every search variant, a result list with at least one
truthy record is answered with the success envelope carrying exactly that
list and the default success message; a result list with no truthy record
(in particular the empty list) is answered with the empty-result message
and null data; the failure envelope arises exactly when the engine result
is not a list at all. -/
theorem c3_amended_search_envelopes (gw : Gateway)
    (valid : Option String → Bool) (token : Option String)
    (v : SearchVariant) (q : SearchQuery) (hv : valid token = true) :
    (∀ xs, gw.deal_search_data v q q.source = PyVal.list xs →
      xs.any truthy = true →
      dispatch valid gw token (Request.douyinSearch v q)
        = (ApiResult.data
            { message := MSG_SUCCESS, data := PyVal.list xs
              params := ModelDump.model_dump q },
           [GatewayCall.deal_search_data v q.keyword])) ∧
    (∀ xs, gw.deal_search_data v q q.source = PyVal.list xs →
      xs.any truthy = false →
      dispatch valid gw token (Request.douyinSearch v q)
        = (ApiResult.data
            { message := MSG_EMPTY_SEARCH, data := PyVal.none
              params := ModelDump.model_dump q },
           [GatewayCall.deal_search_data v q.keyword])) ∧
    ((∀ xs, gw.deal_search_data v q q.source ≠ PyVal.list xs) →
      dispatch valid gw token (Request.douyinSearch v q)
        = (ApiResult.data
            { message := MSG_FAILED, data := PyVal.none
              params := ModelDump.model_dump q },
           [GatewayCall.deal_search_data v q.keyword])) := by
  have hrh : runHandler gw (Request.douyinSearch v q) = handle_search gw v q :=
    rfl
  refine ⟨?_, ?_, ?_⟩
  · intro xs h ha
    rw [dispatch_of_valid _ _ _ _ hv, hrh]
    unfold handle_search
    rw [h]
    simp only [ha]
    rfl
  · intro xs h ha
    rw [dispatch_of_valid _ _ _ _ hv, hrh]
    unfold handle_search
    rw [h]
    simp only [ha]
    rfl
  · intro hnl
    rw [dispatch_of_valid _ _ _ _ hv, hrh]
    unfold handle_search
    cases h : gw.deal_search_data v q q.source with
    | none => rfl
    | bool b => rfl
    | int n => rfl
    | str s => rfl
    | list xs => exact absurd h (hnl xs)
    | dict kvs => rfl

/-- Witness for the amended C3: a one-record hit is echoed back whole. -/
theorem c3_witness :
    dispatch validAll gwSearchHit (Option.some "t")
        (Request.douyinSearch SearchVariant.general sq0)
      = (ApiResult.data
          { message := MSG_SUCCESS
            data := PyVal.list [PyVal.dict [("id", PyVal.str "v1")]]
            params := ModelDump.model_dump sq0 },
         [GatewayCall.deal_search_data SearchVariant.general sq0.keyword]) :=
  (c3_amended_search_envelopes gwSearchHit validAll (Option.some "t")
    SearchVariant.general sq0 rfl).1 [PyVal.dict [("id", PyVal.str "v1")]]
    rfl (by decide)

/-- A truthy value is never None. -/
theorem ne_none_of_truthy {x : PyVal} (h : truthy x = true) : x ≠ PyVal.none := by
  intro hn
  rw [hn] at h
  simp [truthy] at h

/-- The all-failing stub collaborator satisfies AllFail. -/
theorem gwFail_allFail : AllFail gwFail :=
  ⟨fun _ _ => rfl, fun _ _ => rfl, fun _ _ _ _ _ _ => rfl,
   fun _ _ _ _ _ _ _ _ _ _ _ _ _ => rfl, fun _ _ _ _ _ _ _ => rfl,
   fun _ _ _ => rfl, fun _ _ _ => rfl, fun _ _ => rfl,
   fun _ _ _ _ _ _ _ _ _ => rfl, fun _ _ _ _ _ _ _ _ => rfl,
   fun _ _ _ => rfl⟩

/-- With every engine operation failing, each business handler answers a
data envelope with null data, and its message is the failure or the
parameters-invalid message except on the raw live path. -/
theorem allFail_business (gw : Gateway) (hf : AllFail gw) (req : Request)
    (hb : isBusiness req = true) :
    ∃ env, (runHandler gw req).1 = ApiResult.data env ∧
      env.data = PyVal.none ∧
      (liveRaw req = false →
        env.message = MSG_FAILED ∨ env.message = MSG_PARAMS_INVALID) := by
  obtain ⟨hl, hlt, hdet, hacc, hmix, hgl, hglt, hext, hcom, hrep, hsch⟩ := hf
  cases req with
  | index => simp [isBusiness] at hb
  | tokenTest => simp [isBusiness] at hb
  | settingsGet => simp [isBusiness] at hb
  | settingsPost body => simp [isBusiness] at hb
  | douyinShare r => simp [isBusiness] at hb
  | tiktokShare r => simp [isBusiness] at hb
  | douyinDetail r =>
      refine ⟨failed_response r Option.none, ?_, rfl, fun _ => Or.inl rfl⟩
      show (handle_detail_method gw r false).1 = _
      simp [handle_detail_method, hdet]
  | tiktokDetail r =>
      refine ⟨failed_response r Option.none, ?_, rfl, fun _ => Or.inl rfl⟩
      show (handle_detail_method gw r true).1 = _
      simp [handle_detail_method, hdet]
  | douyinAccount r =>
      refine ⟨failed_response r Option.none, ?_, rfl, fun _ => Or.inl rfl⟩
      show (handle_account_method gw r false).1 = _
      simp [handle_account_method, hacc, truthy]
  | tiktokAccount r =>
      refine ⟨failed_response r Option.none, ?_, rfl, fun _ => Or.inl rfl⟩
      show (handle_account_method gw r true).1 = _
      simp [handle_account_method, hacc, truthy]
  | douyinMix r =>
      rcases hgen : generate_mix_params r.mix_id r.detail_id with ⟨ob, id_⟩
      cases ob with
      | none =>
          refine ⟨{ message := MSG_PARAMS_INVALID, data := PyVal.none
                    params := ModelDump.model_dump r },
            ?_, rfl, fun _ => Or.inr rfl⟩
          show (handle_mix_route gw r).1 = _
          simp [handle_mix_route, hgen]
      | some b =>
          refine ⟨failed_response r Option.none, ?_, rfl, fun _ => Or.inl rfl⟩
          show (handle_mix_route gw r).1 = _
          simp [handle_mix_route, hgen, hmix, truthy]
  | tiktokMix r =>
      refine ⟨failed_response r Option.none, ?_, rfl, fun _ => Or.inl rfl⟩
      show (handle_mix_tiktok_route gw r).1 = _
      simp [handle_mix_tiktok_route, hmix, truthy]
  | douyinLive r =>
      cases hs : r.source with
      | true =>
          refine ⟨success_response r PyVal.none Option.none, ?_, rfl, ?_⟩
          · show (handle_live_route gw r false).1 = _
            simp [handle_live_route, handle_live_method, hs, hgl]
          · intro h
            simp [liveRaw, hs] at h
      | false =>
          refine ⟨failed_response r Option.none, ?_, rfl, fun _ => Or.inl rfl⟩
          show (handle_live_route gw r false).1 = _
          simp [handle_live_route, handle_live_method, hs, hgl, hext]
  | tiktokLive r =>
      cases hs : r.source with
      | true =>
          refine ⟨success_response r PyVal.none Option.none, ?_, rfl, ?_⟩
          · show (handle_live_route gw r true).1 = _
            simp [handle_live_route, handle_live_method, hs, hglt]
          · intro h
            simp [liveRaw, hs] at h
      | false =>
          refine ⟨failed_response r Option.none, ?_, rfl, fun _ => Or.inl rfl⟩
          show (handle_live_route gw r true).1 = _
          simp [handle_live_route, handle_live_method, hs, hglt, hext]
  | douyinComment r =>
      refine ⟨failed_response r Option.none, ?_, rfl, fun _ => Or.inl rfl⟩
      show (handle_comment_route gw r).1 = _
      simp [handle_comment_route, hcom, truthy]
  | douyinReply r =>
      refine ⟨failed_response r Option.none, ?_, rfl, fun _ => Or.inl rfl⟩
      show (handle_reply_route gw r).1 = _
      simp [handle_reply_route, hrep, truthy]
  | douyinSearch v q =>
      refine ⟨failed_response q Option.none, ?_, rfl, fun _ => Or.inl rfl⟩
      show (handle_search gw v q).1 = _
      simp [handle_search, hsch]

/-- With every engine operation failing, no route answers a raw transport
error. -/
theorem allFail_no_http (gw : Gateway) (hf : AllFail gw) (req : Request)
    (s : Nat) (d : String) :
    (runHandler gw req).1 ≠ ApiResult.httpError s d := by
  obtain ⟨hl, hlt, hdet, hacc, hmix, hgl, hglt, hext, hcom, hrep, hsch⟩ := hf
  cases req with
  | index => simp [runHandler]
  | tokenTest => simp [runHandler]
  | settingsGet => simp [runHandler]
  | settingsPost body => simp [runHandler]
  | douyinShare r =>
      show (handle_share_route gw r false).1 ≠ _
      simp [handle_share_route, hl, truthy]
  | tiktokShare r =>
      show (handle_share_route gw r true).1 ≠ _
      simp [handle_share_route, hlt, truthy]
  | douyinDetail r =>
      show (handle_detail_method gw r false).1 ≠ _
      simp [handle_detail_method, hdet]
  | tiktokDetail r =>
      show (handle_detail_method gw r true).1 ≠ _
      simp [handle_detail_method, hdet]
  | douyinAccount r =>
      show (handle_account_method gw r false).1 ≠ _
      simp [handle_account_method, hacc, truthy]
  | tiktokAccount r =>
      show (handle_account_method gw r true).1 ≠ _
      simp [handle_account_method, hacc, truthy]
  | douyinMix r =>
      rcases hgen : generate_mix_params r.mix_id r.detail_id with ⟨ob, id_⟩
      cases ob with
      | none =>
          show (handle_mix_route gw r).1 ≠ _
          simp [handle_mix_route, hgen]
      | some b =>
          show (handle_mix_route gw r).1 ≠ _
          simp [handle_mix_route, hgen, hmix, truthy]
  | tiktokMix r =>
      show (handle_mix_tiktok_route gw r).1 ≠ _
      simp [handle_mix_tiktok_route, hmix, truthy]
  | douyinLive r =>
      cases hs : r.source with
      | true =>
          show (handle_live_route gw r false).1 ≠ _
          simp [handle_live_route, handle_live_method, hs, hgl]
      | false =>
          show (handle_live_route gw r false).1 ≠ _
          simp [handle_live_route, handle_live_method, hs, hgl, hext]
  | tiktokLive r =>
      cases hs : r.source with
      | true =>
          show (handle_live_route gw r true).1 ≠ _
          simp [handle_live_route, handle_live_method, hs, hglt]
      | false =>
          show (handle_live_route gw r true).1 ≠ _
          simp [handle_live_route, handle_live_method, hs, hglt, hext]
  | douyinComment r =>
      show (handle_comment_route gw r).1 ≠ _
      simp [handle_comment_route, hcom, truthy]
  | douyinReply r =>
      show (handle_reply_route gw r).1 ≠ _
      simp [handle_reply_route, hrep, truthy]
  | douyinSearch v q =>
      show (handle_search gw v q).1 ≠ _
      simp [handle_search, hsch]

/-- C5 fails as stated: on the raw live path a failed fetch (the engine
answered None) is wrapped in a one-element list, which is truthy, so the
handler answers the success envelope with null data instead of the
uniform failure envelope. -/
theorem c5_counterexample :
    gwFail.get_live_data liveRawReq.web_rid liveRawReq.cookie liveRawReq.proxy
      = PyVal.none ∧
    (dispatch validAll gwFail (Option.some "t")
        (Request.douyinLive liveRawReq)).1
      = ApiResult.data
          { message := MSG_SUCCESS, data := PyVal.none
            params := ModelDump.model_dump liveRawReq } ∧
    MSG_SUCCESS ≠ MSG_FAILED := by
  refine ⟨rfl, by rfl, by decide⟩

/-- C5 amended: with an admitted credential, every engine fault is
resolved into an envelope of the shape belonging to the route, never a raw transport
error; every business route answers a data envelope with null data, whose
message is the failure or parameters-invalid message except on the raw
live path (where the fault is mislabelled as success); the share routes
answer the link-failure UrlResponse. -/
theorem c5_amended_fault_conversion (gw : Gateway)
    (valid : Option String → Bool) (token : Option String) (req : Request)
    (hf : AllFail gw) (hv : valid token = true) :
    (isBusiness req = true →
      ∃ env, (dispatch valid gw token req).1 = ApiResult.data env ∧
        env.data = PyVal.none ∧
        (liveRaw req = false →
          env.message = MSG_FAILED ∨ env.message = MSG_PARAMS_INVALID)) ∧
    (∀ r, req = Request.douyinShare r ∨ req = Request.tiktokShare r →
      (dispatch valid gw token req).1
        = ApiResult.url MSG_URL_FAIL PyVal.none (ModelDump.model_dump r)) ∧
    (∀ s d, (dispatch valid gw token req).1 ≠ ApiResult.httpError s d) := by
  rw [dispatch_of_valid _ _ _ _ hv]
  refine ⟨fun hb => allFail_business gw hf req hb, ?_,
    fun s d => allFail_no_http gw hf req s d⟩
  intro r hr
  obtain ⟨hl, hlt, _, _, _, _, _, _, _, _, _⟩ := hf
  rcases hr with rfl | rfl
  · show (handle_share_route gw r false).1 = _
    simp [handle_share_route, hl, truthy]
  · show (handle_share_route gw r true).1 = _
    simp [handle_share_route, hlt, truthy]

/-- Witness for the amended C5: a comment request against the all-failing
stub yields the failure envelope. -/
theorem c5_witness :
    ∃ env, (dispatch validAll gwFail (Option.some "t")
        (Request.douyinComment commentReq)).1 = ApiResult.data env ∧
      env.data = PyVal.none ∧
      (liveRaw (Request.douyinComment commentReq) = false →
        env.message = MSG_FAILED ∨ env.message = MSG_PARAMS_INVALID) :=
  (c5_amended_fault_conversion gwFail validAll (Option.some "t")
    (Request.douyinComment commentReq) gwFail_allFail rfl).1 rfl

/-- C4 fails as stated: on the raw live path a failed fetch ends in an
envelope whose message is the success message while the actual outcome is
a failure and the data is null, so the message does not reflect the
outcome. -/
theorem c4_counterexample :
    outcome gwFail (Request.douyinLive liveRawReq)
      = Option.some Outcome.failure ∧
    (dispatch validAll gwFail (Option.some "t")
        (Request.douyinLive liveRawReq)).1
      = ApiResult.data
          { message := MSG_SUCCESS, data := PyVal.none
            params := ModelDump.model_dump liveRawReq } ∧
    MSG_SUCCESS ≠ messageOf Outcome.failure := by
  refine ⟨rfl, by rfl, by decide⟩

/-- C4 amended: for every business request whose engine results honour
the record contract and whose raw live fetch (if any) does not fail, the
envelope data is non-null exactly when the actual outcome is success, and
the envelope message is the fixed message of the actual outcome. -/
theorem c4_amended_envelope_invariant (gw : Gateway)
    (valid : Option String → Bool) (token : Option String) (req : Request)
    (o : Outcome) (env : DataResponse)
    (hw : WellBehaved gw) (hlr : LiveRawOk gw req) (hv : valid token = true)
    (ho : outcome gw req = Option.some o)
    (he : (dispatch valid gw token req).1 = ApiResult.data env) :
    ((env.data ≠ PyVal.none) ↔ o = Outcome.success) ∧
    env.message = messageOf o := by
  obtain ⟨hwd, hwe⟩ := hw
  rw [dispatch_of_valid _ _ _ _ hv] at he
  cases req with
  | index => simp [outcome] at ho
  | tokenTest => simp [outcome] at ho
  | settingsGet => simp [outcome] at ho
  | settingsPost body => simp [outcome] at ho
  | douyinShare r => simp [outcome] at ho
  | tiktokShare r => simp [outcome] at ho
  | douyinDetail r =>
      have hrh : runHandler gw (Request.douyinDetail r)
          = handle_detail_method gw r false := rfl
      rw [hrh] at he
      cases hxs : gw.detail_inner [r.detail_id] false true r.source
          r.cookie r.proxy with
      | nil =>
          simp [outcome, hxs] at ho
          simp [handle_detail_method, hxs] at he
          subst ho
          subst he
          exact ⟨iff_of_false (fun h => h rfl) (by decide), rfl⟩
      | cons d rest =>
          simp [outcome, hxs] at ho
          simp [handle_detail_method, hxs] at he
          subst ho
          subst he
          have hd : truthy d = true :=
            hwd _ _ _ _ _ _ d (by rw [hxs]; exact List.mem_cons_self d rest)
          exact ⟨iff_of_true (ne_none_of_truthy hd) rfl, rfl⟩
  | tiktokDetail r =>
      have hrh : runHandler gw (Request.tiktokDetail r)
          = handle_detail_method gw r true := rfl
      rw [hrh] at he
      cases hxs : gw.detail_inner [r.detail_id] true true r.source
          r.cookie r.proxy with
      | nil =>
          simp [outcome, hxs] at ho
          simp [handle_detail_method, hxs] at he
          subst ho
          subst he
          exact ⟨iff_of_false (fun h => h rfl) (by decide), rfl⟩
      | cons d rest =>
          simp [outcome, hxs] at ho
          simp [handle_detail_method, hxs] at he
          subst ho
          subst he
          have hd : truthy d = true :=
            hwd _ _ _ _ _ _ d (by rw [hxs]; exact List.mem_cons_self d rest)
          exact ⟨iff_of_true (ne_none_of_truthy hd) rfl, rfl⟩
  | douyinAccount r =>
      have hrh : runHandler gw (Request.douyinAccount r)
          = handle_account_method gw r false := rfl
      rw [hrh] at he
      cases hx : truthy (gw.deal_account_detail 0 r.sec_user_id r.tab
          r.earliest r.latest r.pages true r.source r.cookie r.proxy false
          r.cursor r.count) with
      | true =>
          simp [outcome, hx] at ho
          simp [handle_account_method, hx] at he
          subst ho
          subst he
          exact ⟨iff_of_true (ne_none_of_truthy hx) rfl, rfl⟩
      | false =>
          simp [outcome, hx] at ho
          simp [handle_account_method, hx] at he
          subst ho
          subst he
          exact ⟨iff_of_false (fun h => h rfl) (by decide), rfl⟩
  | tiktokAccount r =>
      have hrh : runHandler gw (Request.tiktokAccount r)
          = handle_account_method gw r true := rfl
      rw [hrh] at he
      cases hx : truthy (gw.deal_account_detail 0 r.sec_user_id r.tab
          r.earliest r.latest r.pages true r.source r.cookie r.proxy true
          r.cursor r.count) with
      | true =>
          simp [outcome, hx] at ho
          simp [handle_account_method, hx] at he
          subst ho
          subst he
          exact ⟨iff_of_true (ne_none_of_truthy hx) rfl, rfl⟩
      | false =>
          simp [outcome, hx] at ho
          simp [handle_account_method, hx] at he
          subst ho
          subst he
          exact ⟨iff_of_false (fun h => h rfl) (by decide), rfl⟩
  | douyinMix r =>
      have hrh : runHandler gw (Request.douyinMix r)
          = handle_mix_route gw r := rfl
      rw [hrh] at he
      rcases hgen : generate_mix_params r.mix_id r.detail_id with ⟨ob, id_⟩
      cases ob with
      | none =>
          simp [outcome, hgen] at ho
          simp [handle_mix_route, hgen] at he
          subst ho
          subst he
          exact ⟨iff_of_false (fun h => h rfl) (by decide), rfl⟩
      | some b =>
          cases hx : truthy (gw.deal_mix_detail b id_ r.source r.cookie
              r.proxy r.cursor r.count) with
          | true =>
              simp [outcome, hgen, hx] at ho
              simp [handle_mix_route, hgen, hx] at he
              subst ho
              subst he
              exact ⟨iff_of_true (ne_none_of_truthy hx) rfl, rfl⟩
          | false =>
              simp [outcome, hgen, hx] at ho
              simp [handle_mix_route, hgen, hx] at he
              subst ho
              subst he
              exact ⟨iff_of_false (fun h => h rfl) (by decide), rfl⟩
  | tiktokMix r =>
      have hrh : runHandler gw (Request.tiktokMix r)
          = handle_mix_tiktok_route gw r := rfl
      rw [hrh] at he
      cases hx : truthy (gw.deal_mix_detail true (Option.some r.mix_id)
          r.source r.cookie r.proxy r.cursor r.count) with
      | true =>
          simp [outcome, hx] at ho
          simp [handle_mix_tiktok_route, hx] at he
          subst ho
          subst he
          exact ⟨iff_of_true (ne_none_of_truthy hx) rfl, rfl⟩
      | false =>
          simp [outcome, hx] at ho
          simp [handle_mix_tiktok_route, hx] at he
          subst ho
          subst he
          exact ⟨iff_of_false (fun h => h rfl) (by decide), rfl⟩
  | douyinLive r =>
      have hrh : runHandler gw (Request.douyinLive r)
          = handle_live_route gw r false := rfl
      rw [hrh] at he
      cases hs : r.source with
      | true =>
          have hfetch : truthy (gw.get_live_data r.web_rid r.cookie r.proxy)
              = true := hlr hs
          simp [outcome, liveOutcome, hs, hfetch] at ho
          simp [handle_live_route, handle_live_method, hs] at he
          subst ho
          subst he
          exact ⟨iff_of_true (ne_none_of_truthy hfetch) rfl, rfl⟩
      | false =>
          cases hxs : gw.extractor_run_live
              (gw.get_live_data r.web_rid r.cookie r.proxy) false with
          | nil =>
              simp [outcome, liveOutcome, hs, hxs] at ho
              simp [handle_live_route, handle_live_method, hs, hxs] at he
              subst ho
              subst he
              exact ⟨iff_of_false (fun h => h rfl) (by decide), rfl⟩
          | cons d rest =>
              simp [outcome, liveOutcome, hs, hxs] at ho
              simp [handle_live_route, handle_live_method, hs, hxs] at he
              subst ho
              subst he
              have hd : truthy d = true :=
                hwe _ _ d (by rw [hxs]; exact List.mem_cons_self d rest)
              exact ⟨iff_of_true (ne_none_of_truthy hd) rfl, rfl⟩
  | tiktokLive r =>
      have hrh : runHandler gw (Request.tiktokLive r)
          = handle_live_route gw r true := rfl
      rw [hrh] at he
      cases hs : r.source with
      | true =>
          have hfetch : truthy (gw.get_live_data_tiktok r.room_id r.cookie
              r.proxy) = true := hlr hs
          simp [outcome, liveOutcome, hs, hfetch] at ho
          simp [handle_live_route, handle_live_method, hs] at he
          subst ho
          subst he
          exact ⟨iff_of_true (ne_none_of_truthy hfetch) rfl, rfl⟩
      | false =>
          cases hxs : gw.extractor_run_live
              (gw.get_live_data_tiktok r.room_id r.cookie r.proxy) true with
          | nil =>
              simp [outcome, liveOutcome, hs, hxs] at ho
              simp [handle_live_route, handle_live_method, hs, hxs] at he
              subst ho
              subst he
              exact ⟨iff_of_false (fun h => h rfl) (by decide), rfl⟩
          | cons d rest =>
              simp [outcome, liveOutcome, hs, hxs] at ho
              simp [handle_live_route, handle_live_method, hs, hxs] at he
              subst ho
              subst he
              have hd : truthy d = true :=
                hwe _ _ d (by rw [hxs]; exact List.mem_cons_self d rest)
              exact ⟨iff_of_true (ne_none_of_truthy hd) rfl, rfl⟩
  | douyinComment r =>
      have hrh : runHandler gw (Request.douyinComment r)
          = handle_comment_route gw r := rfl
      rw [hrh] at he
      cases hx : truthy (gw.comment_handle_single r.detail_id r.cookie
          r.proxy r.source r.pages r.cursor r.count r.count_reply r.reply) with
      | true =>
          simp [outcome, hx] at ho
          simp [handle_comment_route, hx] at he
          subst ho
          subst he
          exact ⟨iff_of_true (ne_none_of_truthy hx) rfl, rfl⟩
      | false =>
          simp [outcome, hx] at ho
          simp [handle_comment_route, hx] at he
          subst ho
          subst he
          exact ⟨iff_of_false (fun h => h rfl) (by decide), rfl⟩
  | douyinReply r =>
      have hrh : runHandler gw (Request.douyinReply r)
          = handle_reply_route gw r := rfl
      rw [hrh] at he
      cases hx : truthy (gw.reply_handle r.detail_id r.comment_id r.cookie
          r.proxy r.pages r.cursor r.count r.source) with
      | true =>
          simp [outcome, hx] at ho
          simp [handle_reply_route, hx] at he
          subst ho
          subst he
          exact ⟨iff_of_true (ne_none_of_truthy hx) rfl, rfl⟩
      | false =>
          simp [outcome, hx] at ho
          simp [handle_reply_route, hx] at he
          subst ho
          subst he
          exact ⟨iff_of_false (fun h => h rfl) (by decide), rfl⟩
  | douyinSearch v q =>
      have hrh : runHandler gw (Request.douyinSearch v q)
          = handle_search gw v q := rfl
      rw [hrh] at he
      cases hres : gw.deal_search_data v q q.source with
      | list xs =>
          cases hx : xs.any truthy with
          | true =>
              simp [outcome, hres, hx] at ho
              simp [handle_search, hres, hx] at he
              subst ho
              subst he
              exact ⟨iff_of_true (fun h => PyVal.noConfusion h) rfl, rfl⟩
          | false =>
              simp [outcome, hres, hx] at ho
              simp [handle_search, hres, hx] at he
              subst ho
              subst he
              exact ⟨iff_of_false (fun h => h rfl) (by decide), rfl⟩
      | none =>
          simp [outcome, hres] at ho
          simp [handle_search, hres] at he
          subst ho
          subst he
          exact ⟨iff_of_false (fun h => h rfl) (by decide), rfl⟩
      | bool b =>
          simp [outcome, hres] at ho
          simp [handle_search, hres] at he
          subst ho
          subst he
          exact ⟨iff_of_false (fun h => h rfl) (by decide), rfl⟩
      | int n =>
          simp [outcome, hres] at ho
          simp [handle_search, hres] at he
          subst ho
          subst he
          exact ⟨iff_of_false (fun h => h rfl) (by decide), rfl⟩
      | str s =>
          simp [outcome, hres] at ho
          simp [handle_search, hres] at he
          subst ho
          subst he
          exact ⟨iff_of_false (fun h => h rfl) (by decide), rfl⟩
      | dict kvs =>
          simp [outcome, hres] at ho
          simp [handle_search, hres] at he
          subst ho
          subst he
          exact ⟨iff_of_false (fun h => h rfl) (by decide), rfl⟩

/-- Witness for the amended C4: a comment request against the all-failing
stub, whose outcome is failure and whose envelope message is the failure
message with null data. -/
theorem c4_witness :
    ((failed_response commentReq Option.none).data ≠ PyVal.none ↔
      Outcome.failure = Outcome.success) ∧
    (failed_response commentReq Option.none).message
      = messageOf Outcome.failure :=
  c4_amended_envelope_invariant gwFail validAll (Option.some "t")
    (Request.douyinComment commentReq) Outcome.failure
    (failed_response commentReq Option.none)
    ⟨fun _ _ _ _ _ _ x hx => absurd hx (List.not_mem_nil x),
     fun _ _ x hx => absurd hx (List.not_mem_nil x)⟩
    trivial rfl rfl rfl
